import Mathlib

/-!
Shallow embedding of the `stratus` package (src/db.go): a process-wide
singleton accessor for a single GORM database handle.

External calls (the cloud-sql connector, `database/sql`, GORM, `os.Stat`)
are modelled by an explicit environment `Env` of oracles; the package's own
control flow (`Connect`, `GetInstance`, the two pool options) is translated
line by line from src/db.go.  The process-wide variable `db` is passed as
explicit state (`Option GormDB`; `none` is the nil pointer).
-/

namespace Stratus

/-- Go errors are modelled by their message strings. -/
abbrev Err := String

/-- Model of the pooled connection object `*sql.DB`: the two pool settings
this package touches.  `SetMaxOpenConns` / `SetMaxIdleConns` are modelled as
recording the requested value. -/
structure SqlDB where
  maxOpenConns : Int
  maxIdleConns : Int
deriving DecidableEq, Repr

/-- Model of the ORM handle `*gorm.DB`: an identity (to tell distinct handles
apart) plus its underlying pooled connection object, which `(*gorm.DB).DB()`
exposes and which the configuration options mutate through a pointer. -/
structure GormDB where
  id : Nat
  conn : SqlDB
deriving DecidableEq, Repr

/-- Options passed to the cloud-connector driver registration
(`cloudsqlconn.Option` values built in src/db.go lines 47-54). -/
inductive CloudOption where
  | withIAMAuthN
  | withCredentialsFile (path : String)
deriving DecidableEq, Repr

/-- A configuration option `func(*sql.DB) error`.  Go mutates the pooled
connection object through the pointer; the model returns the updated object
alongside the error. -/
def DBOpt := SqlDB → Option Err × SqlDB

/-- Environment of external calls made by `Connect`.  Each field is the
oracle for one external function; pairs mirror Go's multiple return values
(`nil` pointers are `none`). -/
structure Env where
  /-- Whether `os.Stat("/etc/sql/auth.json")` returns a nil error (the file
  exists). -/
  statOk : Bool
  /-- Result of `pgxv5.RegisterDriver("cloudsql-postgres", authOption...)`
  as a function of the options passed; the returned cleanup function is
  discarded by the source, so only the error is modelled. -/
  registerDriver : List CloudOption → Option Err
  /-- Result of `sql.Open(driver, dsn)`. -/
  sqlOpen : String → String → Option SqlDB × Option Err
  /-- Result of `gorm.Open(postgres.New(postgres.Config{Conn: sdb}), cfg)`. -/
  gormOpenConn : Option SqlDB → Option GormDB × Option Err
  /-- Result of `gorm.Open(postgres.Open(dsn), cfg)`. -/
  gormOpenDsn : String → Option GormDB × Option Err
  /-- Error result of `(*gorm.DB).DB()`; on a nil error it yields the
  handle's `conn` field. -/
  dbFetch : GormDB → Option Err

/-- Model of `strings.ToLower` as applied to driver names (src/db.go
line 43): ASCII case folding, characterwise. -/
def toLowerStr (s : String) : String := ⟨s.data.map Char.toLower⟩

/-- The three arms of the `switch driver` statement in `Connect`
(src/db.go lines 44-80). -/
inductive Branch where
  | cloudsql
  | direct
  | unsupported
deriving DecidableEq, Repr

/-- Which arm of the switch a given (not yet lowered) driver name selects. -/
def driverBranch (driver : String) : Branch :=
  let d := toLowerStr driver
  if d = "cloudsql-postgres" then Branch.cloudsql
  else if d = "postgresql" ∨ d = "postgres" then Branch.direct
  else Branch.unsupported

/-- Option list built for the driver registration (src/db.go lines 46-54):
`WithIAMAuthN` always; `WithCredentialsFile("/etc/sql/auth.json")` appended
when `os.Stat` on that path succeeds. -/
def authOption (statOk : Bool) : List CloudOption :=
  let a := [CloudOption.withIAMAuthN]
  if statOk then a ++ [CloudOption.withCredentialsFile "/etc/sql/auth.json"]
  else a

/-- The option loop of `Connect` (src/db.go lines 87-91): apply each option
in order; the first failing option aborts the loop and its error is wrapped
as `db opts failure: ...`.  Also returns the final pooled-connection state
and how many options were invoked. -/
def applyOpts : List DBOpt → SqlDB → SqlDB × Option Err × Nat
  | [], s => (s, none, 0)
  | o :: rest, s =>
    match o s with
    | (some e, s1) => (s1, some ("db opts failure: " ++ e), 1)
    | (none, s1) =>
      let r := applyOpts rest s1
      (r.1, r.2.1, r.2.2 + 1)

/-- Helper for stating hypotheses: run a list of options in order, returning
the resulting pooled-connection state when every one of them succeeds. -/
def applyAllOk : List DBOpt → SqlDB → Option SqlDB
  | [], s => some s
  | o :: rest, s =>
    match o s with
    | (none, s1) => applyAllOk rest s1
    | (some _, _) => none

/-- Observable outcome of one `Connect` call: the process-wide `db` variable
after the call, the returned error, the options that were passed to
`pgxv5.RegisterDriver` (if that call happened), how many configuration
options were invoked, and whether the call panicked (which in Go happens if
a successful `gorm.Open` returned a nil handle and `db.DB()` dereferences
it). -/
structure ConnectOut where
  g : Option GormDB
  err : Option Err
  registered : Option (List CloudOption)
  optsInvoked : Nat
  panicked : Bool
deriving DecidableEq, Repr

/-- Code after the switch in `Connect` (src/db.go lines 83-93): fetch the
pooled connection from the freshly stored global handle, then run the option
loop; option mutations reach the global handle through the pointer, modelled
by writing the final pooled-connection state back into it. -/
def afterOpen (env : Env) (gdb : GormDB) (reg : Option (List CloudOption))
    (opts : List DBOpt) : ConnectOut :=
  match env.dbFetch gdb with
  | some e =>
    { g := some gdb, err := some ("unable to fetch *sql.DB from *gorm.DB: " ++ e),
      registered := reg, optsInvoked := 0, panicked := false }
  | none =>
    let r := applyOpts opts gdb.conn
    { g := some { gdb with conn := r.1 }, err := r.2.1,
      registered := reg, optsInvoked := r.2.2, panicked := false }

/-- `Connect` (src/db.go lines 32-94), as a function of the environment of
external calls, the prior value of the process-wide `db` variable, and the
arguments.  Note that `db, err = gorm.Open(...)` assigns the global *before*
the error check, so the global receives whatever handle `gorm.Open` returned
even on failure. -/
def Connect (env : Env) (g : Option GormDB) (driver dsn : String)
    (opts : List DBOpt) : ConnectOut :=
  let d := toLowerStr driver
  match driverBranch driver with
  | Branch.cloudsql =>
    let a := authOption env.statOk
    match env.registerDriver a with
    | some e =>
      { g := g, err := some ("pgxv5.RegisterDriver(...): " ++ e),
        registered := some a, optsInvoked := 0, panicked := false }
    | none =>
      match env.sqlOpen d dsn with
      | (_, some e) =>
        { g := g, err := some ("sql.Open(...): " ++ e),
          registered := some a, optsInvoked := 0, panicked := false }
      | (sdb, none) =>
        match env.gormOpenConn sdb with
        | (gres, some e) =>
          { g := gres, err := some ("unable to open db: " ++ e),
            registered := some a, optsInvoked := 0, panicked := false }
        | (some gdb, none) => afterOpen env gdb (some a) opts
        | (none, none) =>
          { g := none, err := none, registered := some a,
            optsInvoked := 0, panicked := true }
  | Branch.direct =>
    match env.gormOpenDsn dsn with
    | (gres, some e) =>
      { g := gres, err := some ("unable to open db: " ++ e),
        registered := none, optsInvoked := 0, panicked := false }
    | (some gdb, none) => afterOpen env gdb none opts
    | (none, none) =>
      { g := none, err := none, registered := none,
        optsInvoked := 0, panicked := true }
  | Branch.unsupported =>
    { g := g, err := some ("unsupported database: " ++ d),
      registered := none, optsInvoked := 0, panicked := false }

/-- Outcome of `GetInstance`: either a Go panic with its message, or the
returned handle. -/
inductive GetInstanceRes where
  | panicked (msg : String)
  | value (d : GormDB)
deriving DecidableEq, Repr

/-- `GetInstance` (src/db.go lines 99-105): panics when the process-wide
variable is nil, otherwise returns it. -/
def GetInstance : Option GormDB → GetInstanceRes
  | none => GetInstanceRes.panicked "database accessed before initialized"
  | some d => GetInstanceRes.value d

/-- `WithMaxConnections` (src/db.go lines 109-114): sets `MaxOpenConns` and
returns nil. -/
def WithMaxConnections (max : Int) : DBOpt :=
  fun db => (none, { db with maxOpenConns := max })

/-- `WithMaxIdleConnections` (src/db.go lines 118-123): sets `MaxIdleConns`
and returns nil. -/
def WithMaxIdleConnections (max : Int) : DBOpt :=
  fun db => (none, { db with maxIdleConns := max })

/-! Concrete sample values, used to evaluate the definitions on closed
inputs. -/

/-- A pooled-connection object with both pool limits at their zero value. -/
def sql0 : SqlDB := { maxOpenConns := 0, maxIdleConns := 0 }

/-- A sample ORM handle, standing for the result of an earlier `Connect`. -/
def handle1 : GormDB := { id := 1, conn := sql0 }

/-- A second, distinct sample ORM handle, standing for the handle a fresh
`gorm.Open` returns. -/
def handle2 : GormDB := { id := 2, conn := sql0 }

/-- An environment in which every external call succeeds: registration and
`DB()` return nil errors, `sql.Open` yields `sql0`, and both `gorm.Open`
variants yield `handle2`; the credential file is absent. -/
def envOk : Env :=
  { statOk := false
  , registerDriver := fun _ => none
  , sqlOpen := fun _ _ => (some sql0, none)
  , gormOpenConn := fun _ => (some handle2, none)
  , gormOpenDsn := fun _ => (some handle2, none)
  , dbFetch := fun _ => none }

/-- The all-succeeding environment, but with the credential file present. -/
def envStat : Env := { envOk with statOk := true }

/-- A configuration option that always fails with message `boom` and leaves
the pooled connection untouched. -/
def failOpt : DBOpt := fun s => (some "boom", s)

/-- A configuration option that always succeeds, setting `MaxOpenConns`
to 7. -/
def okOpt : DBOpt := fun s => (none, { s with maxOpenConns := 7 })

/-! Helper lemmas. -/

/-- ASCII case folding is idempotent on characters. -/
lemma charToLower_idem (c : Char) : c.toLower.toLower = c.toLower := by
  by_cases h : 65 ≤ c.toNat ∧ c.toNat ≤ 90
  · have h65 := h.1
    have h90 := h.2
    have hc : c.toLower = Char.ofNat (c.toNat + 32) := by
      unfold Char.toLower
      rw [if_pos ⟨h.1, h.2⟩]
    rw [hc]
    generalize c.toNat = n at h65 h90
    interval_cases n <;> decide
  · have hc : c.toLower = c := by
      unfold Char.toLower
      rw [if_neg h]
    rw [hc, hc]

/-- The driver-name lowering is idempotent. -/
lemma toLowerStr_idem (s : String) : toLowerStr (toLowerStr s) = toLowerStr s := by
  unfold toLowerStr
  rw [List.map_map]
  congr 1
  apply List.map_congr_left
  intro c _
  exact charToLower_idem c

/-- Lowering the driver name first does not change the selected branch. -/
lemma driverBranch_toLowerStr (s : String) :
    driverBranch (toLowerStr s) = driverBranch s := by
  unfold driverBranch
  rw [toLowerStr_idem]

/-- Unfolding equation of the option loop at a cons cell. -/
lemma applyOpts_cons (o : DBOpt) (rest : List DBOpt) (s : SqlDB) :
    applyOpts (o :: rest) s =
      match o s with
      | (some e, s1) => (s1, some ("db opts failure: " ++ e), 1)
      | (none, s1) =>
        ((applyOpts rest s1).1, (applyOpts rest s1).2.1,
          (applyOpts rest s1).2.2 + 1) := rfl

/-- Peeling an all-successful run of options off the front of the option
loop: the remaining options run from the state the successful ones
produced, and the invocation count grows by their number. -/
lemma applyOpts_ok_append (as : List DBOpt) (s s1 : SqlDB)
    (h : applyAllOk as s = some s1) (bs : List DBOpt) :
    applyOpts (as ++ bs) s =
      ((applyOpts bs s1).1, (applyOpts bs s1).2.1,
        (applyOpts bs s1).2.2 + as.length) := by
  induction as generalizing s with
  | nil =>
    unfold applyAllOk at h
    cases h
    simp
  | cons o rest ih =>
    unfold applyAllOk at h
    rcases ho : o s with ⟨e, s2⟩
    rw [ho] at h
    cases e with
    | some e0 => simp at h
    | none =>
      simp only at h
      rw [List.cons_append, applyOpts_cons, ho]
      simp only
      rw [ih s2 h]
      simp [Nat.add_assoc]

/-- When every option in `as` succeeds and `b` then fails with `e`, the
option loop on `as ++ b :: cs` stops at `b`: it yields `b`'s wrapped error,
`b`'s output state, and an invocation count of `as.length + 1`, regardless
of `cs`. -/
lemma applyOpts_fail (as cs : List DBOpt) (b : DBOpt) (s s1 sb : SqlDB)
    (e : Err) (has : applyAllOk as s = some s1) (hb : b s1 = (some e, sb)) :
    applyOpts (as ++ b :: cs) s =
      (sb, some ("db opts failure: " ++ e), as.length + 1) := by
  rw [applyOpts_ok_append as s s1 has (b :: cs)]
  unfold applyOpts
  rw [hb]
  simp [Nat.add_comm]

/-- Case insensitivity of `Connect` in the driver argument. -/
lemma Connect_toLowerStr (env : Env) (g : Option GormDB) (s dsn : String)
    (opts : List DBOpt) :
    Connect env g (toLowerStr s) dsn opts = Connect env g s dsn opts := by
  unfold Connect
  rw [toLowerStr_idem, driverBranch_toLowerStr]

/-- Behaviour of `Connect` on the default arm of the switch. -/
lemma Connect_unsupported (env : Env) (g : Option GormDB) (driver dsn : String)
    (opts : List DBOpt) (h : driverBranch driver = Branch.unsupported) :
    Connect env g driver dsn opts =
      { g := g, err := some ("unsupported database: " ++ toLowerStr driver),
        registered := none, optsInvoked := 0, panicked := false } := by
  unfold Connect
  rw [h]

/-- Behaviour of `Connect` on the `"postgresql", "postgres"` arm. -/
lemma Connect_direct (env : Env) (g : Option GormDB) (driver dsn : String)
    (opts : List DBOpt) (h : driverBranch driver = Branch.direct) :
    Connect env g driver dsn opts =
      (match env.gormOpenDsn dsn with
       | (gres, some e) =>
         { g := gres, err := some ("unable to open db: " ++ e),
           registered := none, optsInvoked := 0, panicked := false }
       | (some gdb, none) => afterOpen env gdb none opts
       | (none, none) =>
         { g := none, err := none, registered := none,
           optsInvoked := 0, panicked := true }) := by
  unfold Connect
  rw [h]

/-- Behaviour of `Connect` on the `"cloudsql-postgres"` arm. -/
lemma Connect_cloudsql (env : Env) (g : Option GormDB) (driver dsn : String)
    (opts : List DBOpt) (h : driverBranch driver = Branch.cloudsql) :
    Connect env g driver dsn opts =
      (match env.registerDriver (authOption env.statOk) with
       | some e =>
         { g := g, err := some ("pgxv5.RegisterDriver(...): " ++ e),
           registered := some (authOption env.statOk), optsInvoked := 0,
           panicked := false }
       | none =>
         match env.sqlOpen (toLowerStr driver) dsn with
         | (_, some e) =>
           { g := g, err := some ("sql.Open(...): " ++ e),
             registered := some (authOption env.statOk), optsInvoked := 0,
             panicked := false }
         | (sdb, none) =>
           match env.gormOpenConn sdb with
           | (gres, some e) =>
             { g := gres, err := some ("unable to open db: " ++ e),
               registered := some (authOption env.statOk), optsInvoked := 0,
               panicked := false }
           | (some gdb, none) => afterOpen env gdb (some (authOption env.statOk)) opts
           | (none, none) =>
             { g := none, err := none, registered := some (authOption env.statOk),
               optsInvoked := 0, panicked := true }) := by
  unfold Connect
  rw [h]

/-- The post-open code stores a handle whose identity is the freshly opened
handle's identity, whatever the option outcomes. -/
lemma afterOpen_g_id (env : Env) (gdb : GormDB) (reg : Option (List CloudOption))
    (opts : List DBOpt) :
    ∃ hres : GormDB, (afterOpen env gdb reg opts).g = some hres ∧
      hres.id = gdb.id := by
  unfold afterOpen
  cases hf : env.dbFetch gdb with
  | some e => exact ⟨gdb, rfl, rfl⟩
  | none => exact ⟨_, rfl, rfl⟩

/-- The global stored by the post-open code does not depend on which options
were passed to the driver registration. -/
lemma afterOpen_g_reg (env : Env) (gdb : GormDB)
    (r1 r2 : Option (List CloudOption)) (opts : List DBOpt) :
    (afterOpen env gdb r1 opts).g = (afterOpen env gdb r2 opts).g := by
  unfold afterOpen
  cases hf : env.dbFetch gdb <;> rfl

/-- The options recorded by the post-open code are the ones it was given. -/
lemma afterOpen_registered (env : Env) (gdb : GormDB)
    (reg : Option (List CloudOption)) (opts : List DBOpt) :
    (afterOpen env gdb reg opts).registered = reg := by
  unfold afterOpen
  cases hf : env.dbFetch gdb <;> rfl

/-- In the cloud-sql arm, whatever happens afterwards, the options passed to
the driver registration are exactly `authOption env.statOk`. -/
lemma Connect_cloudsql_registered (env : Env) (g : Option GormDB)
    (driver dsn : String) (opts : List DBOpt)
    (h : driverBranch driver = Branch.cloudsql) :
    (Connect env g driver dsn opts).registered =
      some (authOption env.statOk) := by
  rw [Connect_cloudsql env g driver dsn opts h]
  cases hr : env.registerDriver (authOption env.statOk) with
  | some e => rfl
  | none =>
    dsimp only
    rcases hs : env.sqlOpen (toLowerStr driver) dsn with ⟨sdb, eo⟩
    cases eo with
    | some e => rfl
    | none =>
      dsimp only
      rcases hg : env.gormOpenConn sdb with ⟨gres, eo2⟩
      cases eo2 with
      | some e => cases gres <;> rfl
      | none =>
        cases gres with
        | none => rfl
        | some gdb => exact afterOpen_registered env gdb _ opts

/-! Claim theorems. -/

/-- C4: when the process-wide handle is nil (no successful Connect has set
it), GetInstance panics with the message `database accessed before
initialized` rather than returning a value. -/
theorem C4_getInstance_panics_before_init :
    GetInstance none =
      GetInstanceRes.panicked "database accessed before initialized" := rfl

/-- C8: for every integer n and pooled-connection object d, the option
returned by WithMaxConnections n sets the maximum open connections of d to
n and returns a nil error, and the option returned by
WithMaxIdleConnections n sets the maximum idle connections of d to n and
returns a nil error; neither can return a non-nil error. -/
theorem C8_pool_options_always_succeed (n : Int) (d : SqlDB) :
    WithMaxConnections n d = (none, { d with maxOpenConns := n }) ∧
    WithMaxIdleConnections n d = (none, { d with maxIdleConns := n }) :=
  ⟨rfl, rfl⟩

/-- C5: driver-name matching in Connect is case-insensitive: Connect with
driver s behaves exactly as Connect with lowercase(s), the selected branch
is unchanged by lowering, and the usual casings "POSTGRES" and "PostgreSQL"
of the recognized spellings route to the same (direct) branch as
"postgres". -/
theorem C5_driver_matching_case_insensitive (env : Env) (g : Option GormDB)
    (s dsn : String) (opts : List DBOpt) :
    Connect env g s dsn opts = Connect env g (toLowerStr s) dsn opts ∧
    driverBranch s = driverBranch (toLowerStr s) ∧
    driverBranch "POSTGRES" = driverBranch "postgres" ∧
    driverBranch "PostgreSQL" = driverBranch "postgres" ∧
    driverBranch "postgres" = Branch.direct := by
  refine ⟨(Connect_toLowerStr env g s dsn opts).symm,
    (driverBranch_toLowerStr s).symm, ?_, ?_, ?_⟩ <;> decide

/-- C2: for every driver string whose lowercased form is none of
"cloudsql-postgres", "postgresql", "postgres", Connect returns the non-nil
error `unsupported database: <lowered driver>` and the process-wide handle
is exactly what it was before the call. -/
theorem C2_unsupported_driver_error (env : Env) (g : Option GormDB)
    (driver dsn : String) (opts : List DBOpt)
    (h1 : toLowerStr driver ≠ "cloudsql-postgres")
    (h2 : toLowerStr driver ≠ "postgresql")
    (h3 : toLowerStr driver ≠ "postgres") :
    (Connect env g driver dsn opts).err =
      some ("unsupported database: " ++ toLowerStr driver) ∧
    (Connect env g driver dsn opts).g = g := by
  have hb : driverBranch driver = Branch.unsupported := by
    unfold driverBranch
    simp [h1, h2, h3]
  rw [Connect_unsupported env g driver dsn opts hb]
  exact ⟨rfl, rfl⟩

/-- Witness for C2 at the concrete driver "MySQL" with an unset global. -/
theorem C2_unsupported_driver_error_witness :
    (Connect envOk none "MySQL" "dsn" []).err =
      some ("unsupported database: " ++ toLowerStr "MySQL") ∧
    (Connect envOk none "MySQL" "dsn" []).g = none :=
  C2_unsupported_driver_error envOk none "MySQL" "dsn" []
    (by decide) (by decide) (by decide)

/-- C6: in the cloud-sql arm, the option set passed to the driver
registration is exactly the built `authOption` list, which contains the
credentials-file option for the fixed path /etc/sql/auth.json exactly when
the stat of that path succeeded, and contains no credentials-file option at
all when it did not. -/
theorem C6_credentials_file_selection (env : Env) (g : Option GormDB)
    (driver dsn : String) (opts : List DBOpt)
    (h : driverBranch driver = Branch.cloudsql) :
    (Connect env g driver dsn opts).registered =
      some (authOption env.statOk) ∧
    (env.statOk = true →
      authOption env.statOk =
        [CloudOption.withIAMAuthN,
          CloudOption.withCredentialsFile "/etc/sql/auth.json"]) ∧
    (env.statOk = false →
      ∀ p : String,
        CloudOption.withCredentialsFile p ∉ authOption env.statOk) := by
  refine ⟨Connect_cloudsql_registered env g driver dsn opts h, ?_, ?_⟩
  · intro ht
    rw [ht]
    rfl
  · intro hf p
    rw [hf]
    simp [authOption]

/-- Witness for C6 at the concrete driver "cloudsql-postgres" with the
credential file present. -/
theorem C6_credentials_file_selection_witness :
    (Connect envStat none "cloudsql-postgres" "dsn" []).registered =
      some (authOption envStat.statOk) ∧
    authOption envStat.statOk =
      [CloudOption.withIAMAuthN,
        CloudOption.withCredentialsFile "/etc/sql/auth.json"] := by
  obtain ⟨h1, h2, h3⟩ :=
    C6_credentials_file_selection envStat none "cloudsql-postgres" "dsn" []
      (by decide)
  exact ⟨h1, h2 rfl⟩

/-- C10: in the cloud-sql arm the IAM-authentication option is always
included in the registration option set (it is the head of the list), for
every execution regardless of the credential-file stat; when the file
exists, the credentials-file option is appended after it, never instead of
it. -/
theorem C10_iam_option_always_present (env : Env) (g : Option GormDB)
    (driver dsn : String) (opts : List DBOpt)
    (h : driverBranch driver = Branch.cloudsql) :
    CloudOption.withIAMAuthN ∈ authOption env.statOk ∧
    (authOption env.statOk).head? = some CloudOption.withIAMAuthN ∧
    (Connect env g driver dsn opts).registered =
      some (authOption env.statOk) ∧
    authOption env.statOk =
      [CloudOption.withIAMAuthN] ++
        (if env.statOk then
          [CloudOption.withCredentialsFile "/etc/sql/auth.json"]
        else []) := by
  refine ⟨?_, ?_, Connect_cloudsql_registered env g driver dsn opts h, ?_⟩ <;>
    cases hs : env.statOk <;> simp [authOption]

/-- Witness for C10 at the concrete driver "cloudsql-postgres" with the
credential file present. -/
theorem C10_iam_option_always_present_witness :
    CloudOption.withIAMAuthN ∈ authOption envStat.statOk ∧
    (Connect envStat none "cloudsql-postgres" "dsn" []).registered =
      some (authOption envStat.statOk) := by
  obtain ⟨h1, h2, h3, h4⟩ :=
    C10_iam_option_always_present envStat none "cloudsql-postgres" "dsn" []
      (by decide)
  exact ⟨h1, h3⟩

/-- C3: after a successful open and pooled-connection fetch, the
configuration options run in the order supplied; if every option in `as`
succeeds and `b` then fails with error `e`, Connect returns `e` wrapped as
`db opts failure: e`, exactly `as.length + 1` options are invoked, and the
whole outcome is independent of the options following `b` (so none of them
is ever invoked). -/
theorem C3_option_short_circuit (env : Env) (g : Option GormDB)
    (driver dsn : String) (hdb : GormDB) (as cs cs2 : List DBOpt) (b : DBOpt)
    (s1 sb : SqlDB) (e : Err)
    (hbr : driverBranch driver = Branch.direct)
    (hopen : env.gormOpenDsn dsn = (some hdb, none))
    (hfetch : env.dbFetch hdb = none)
    (has : applyAllOk as hdb.conn = some s1)
    (hb : b s1 = (some e, sb)) :
    (Connect env g driver dsn (as ++ b :: cs)).err =
      some ("db opts failure: " ++ e) ∧
    (Connect env g driver dsn (as ++ b :: cs)).optsInvoked = as.length + 1 ∧
    Connect env g driver dsn (as ++ b :: cs) =
      Connect env g driver dsn (as ++ b :: cs2) := by
  have key : ∀ cs3 : List DBOpt,
      Connect env g driver dsn (as ++ b :: cs3) =
        { g := some { hdb with conn := sb },
          err := some ("db opts failure: " ++ e),
          registered := none, optsInvoked := as.length + 1,
          panicked := false } := by
    intro cs3
    rw [Connect_direct env g driver dsn _ hbr, hopen]
    dsimp only
    unfold afterOpen
    rw [hfetch]
    dsimp only
    rw [applyOpts_fail as cs3 b hdb.conn s1 sb e has hb]
  rw [key cs, key cs2]
  exact ⟨rfl, rfl, rfl⟩

/-- Witness for C3: options [succeed, fail, succeed]; the failing option's
wrapped error is returned, two options run, and the outcome equals the one
with the trailing option removed. -/
theorem C3_option_short_circuit_witness :
    (Connect envOk none "postgres" "dsn" [okOpt, failOpt, okOpt]).err =
      some ("db opts failure: " ++ "boom") ∧
    (Connect envOk none "postgres" "dsn" [okOpt, failOpt, okOpt]).optsInvoked =
      2 ∧
    Connect envOk none "postgres" "dsn" [okOpt, failOpt, okOpt] =
      Connect envOk none "postgres" "dsn" [okOpt, failOpt] := by
  have h := C3_option_short_circuit envOk none "postgres" "dsn" handle2
    [okOpt] [okOpt] [] failOpt { sql0 with maxOpenConns := 7 }
    { sql0 with maxOpenConns := 7 } "boom"
    (by decide) (by decide) (by decide) (by decide) (by decide)
  exact ⟨h.1, h.2.1, h.2.2⟩

/-- C7: whenever Connect returns (no panic) with a nil error, the
process-wide handle holds some handle, and GetInstance then returns that
non-nil handle instead of panicking. -/
theorem C7_connect_success_getInstance (env : Env) (g : Option GormDB)
    (driver dsn : String) (opts : List DBOpt)
    (herr : (Connect env g driver dsn opts).err = none)
    (hpan : (Connect env g driver dsn opts).panicked = false) :
    ∃ hdb : GormDB, (Connect env g driver dsn opts).g = some hdb ∧
      GetInstance (Connect env g driver dsn opts).g =
        GetInstanceRes.value hdb := by
  suffices hg : ∃ hdb : GormDB, (Connect env g driver dsn opts).g = some hdb by
    obtain ⟨hdb, h1⟩ := hg
    exact ⟨hdb, h1, by rw [h1]; rfl⟩
  cases hbr : driverBranch driver with
  | unsupported =>
    rw [Connect_unsupported env g driver dsn opts hbr] at herr
    simp at herr
  | direct =>
    rw [Connect_direct env g driver dsn opts hbr] at herr hpan ⊢
    rcases hdsn : env.gormOpenDsn dsn with ⟨gres, eo⟩
    rw [hdsn] at herr hpan
    cases eo with
    | some e => cases gres <;> simp at herr
    | none =>
      cases gres with
      | none => simp at hpan
      | some gdb =>
        obtain ⟨hres, h1, h2⟩ := afterOpen_g_id env gdb none opts
        exact ⟨hres, h1⟩
  | cloudsql =>
    rw [Connect_cloudsql env g driver dsn opts hbr] at herr hpan ⊢
    cases hr : env.registerDriver (authOption env.statOk) with
    | some e => rw [hr] at herr; simp at herr
    | none =>
      rw [hr] at herr hpan
      dsimp only at herr hpan ⊢
      rcases hs : env.sqlOpen (toLowerStr driver) dsn with ⟨sdb, eo⟩
      rw [hs] at herr hpan
      cases eo with
      | some e => simp at herr
      | none =>
        dsimp only at herr hpan ⊢
        rcases hc : env.gormOpenConn sdb with ⟨gres, eo2⟩
        rw [hc] at herr hpan
        cases eo2 with
        | some e => cases gres <;> simp at herr
        | none =>
          cases gres with
          | none => simp at hpan
          | some gdb =>
            obtain ⟨hres, h1, h2⟩ :=
              afterOpen_g_id env gdb (some (authOption env.statOk)) opts
            exact ⟨hres, h1⟩

/-- Witness for C7: a fully successful Connect with driver "postgres",
after which GetInstance returns the opened handle. -/
theorem C7_connect_success_getInstance_witness :
    GetInstance (Connect envOk none "postgres" "dsn" []).g =
      GetInstanceRes.value handle2 := by
  obtain ⟨hdb, h1, h2⟩ :=
    C7_connect_success_getInstance envOk none "postgres" "dsn" []
      (by decide) (by decide)
  have h3 : (Connect envOk none "postgres" "dsn" []).g = some handle2 := by
    decide
  rw [h1] at h3
  rw [h2, Option.some_inj.mp h3]

/-- C9: Connect has no guard against re-initialization: once a Connect call
reaches a successful open (in either arm), the process-wide handle it
stores is independent of whatever the global held before the call, and it
is the freshly opened handle (same identity), silently replacing the old
one. -/
theorem C9_reconnect_overwrites_global (env : Env) (g1 g2 : Option GormDB)
    (driver dsn : String) (opts : List DBOpt) (hdb : GormDB)
    (sdb : Option SqlDB)
    (h : (driverBranch driver = Branch.direct ∧
            env.gormOpenDsn dsn = (some hdb, none)) ∨
         (driverBranch driver = Branch.cloudsql ∧
            env.registerDriver (authOption env.statOk) = none ∧
            env.sqlOpen (toLowerStr driver) dsn = (sdb, none) ∧
            env.gormOpenConn sdb = (some hdb, none))) :
    (Connect env g1 driver dsn opts).g = (Connect env g2 driver dsn opts).g ∧
    ∃ hres : GormDB, (Connect env g1 driver dsn opts).g = some hres ∧
      hres.id = hdb.id := by
  have key : ∀ g0 : Option GormDB, ∃ reg,
      Connect env g0 driver dsn opts = afterOpen env hdb reg opts := by
    intro g0
    rcases h with ⟨hbr, hopen⟩ | ⟨hbr, hreg, hsql, hconn⟩
    · refine ⟨none, ?_⟩
      rw [Connect_direct env g0 driver dsn opts hbr, hopen]
    · refine ⟨some (authOption env.statOk), ?_⟩
      rw [Connect_cloudsql env g0 driver dsn opts hbr, hreg]
      dsimp only
      rw [hsql]
      dsimp only
      rw [hconn]
  obtain ⟨r1, e1⟩ := key g1
  obtain ⟨r2, e2⟩ := key g2
  constructor
  · rw [e1, e2]
    exact afterOpen_g_reg env hdb r1 r2 opts
  · rw [e1]
    exact afterOpen_g_id env hdb r1 opts

/-- Witness for C9: with the global already holding handle1, a second
successful Connect stores the same handle as when the global was unset,
namely (a handle with the identity of) the freshly opened handle2. -/
theorem C9_reconnect_overwrites_global_witness :
    (Connect envOk (some handle1) "postgres" "dsn" []).g =
      (Connect envOk none "postgres" "dsn" []).g ∧
    (Connect envOk (some handle1) "postgres" "dsn" []).g = some handle2 := by
  have h := C9_reconnect_overwrites_global envOk (some handle1) none
    "postgres" "dsn" [] handle2 none (Or.inl ⟨by decide, by decide⟩)
  exact ⟨h.1, by decide⟩

/-- C1 counterexample: a Connect call that returns a non-nil error (a
failing configuration option) yet mutates the process-wide handle, which
started as nil and ends holding the freshly opened handle; the
partially-configured handle is observable via GetInstance. -/
theorem C1_error_return_mutates_global_counterexample :
    (Connect envOk none "postgres" "dsn" [failOpt]).err ≠ none ∧
    (Connect envOk none "postgres" "dsn" [failOpt]).g ≠ none ∧
    GetInstance (Connect envOk none "postgres" "dsn" [failOpt]).g =
      GetInstanceRes.value handle2 := by
  decide

/-- C1 amended: Connect leaves the global unchanged only on the failures
that occur before the ORM open: unsupported driver, driver-registration
failure, and low-level open failure.  On an ORM-open failure the global is
overwritten with whatever handle the ORM open returned, and on a
configuration-option failure the global keeps the newly opened handle with
the successfully applied option mutations (only the options before the
failing one having run). -/
theorem C1_global_mutation_boundary (env : Env) (g : Option GormDB)
    (driver dsn : String) (opts : List DBOpt) :
    (driverBranch driver = Branch.unsupported →
      (Connect env g driver dsn opts).g = g ∧
      (Connect env g driver dsn opts).err.isSome = true) ∧
    (driverBranch driver = Branch.cloudsql →
      (env.registerDriver (authOption env.statOk)).isSome = true →
      (Connect env g driver dsn opts).g = g) ∧
    (driverBranch driver = Branch.cloudsql →
      env.registerDriver (authOption env.statOk) = none →
      (env.sqlOpen (toLowerStr driver) dsn).2.isSome = true →
      (Connect env g driver dsn opts).g = g) ∧
    (driverBranch driver = Branch.direct →
      ∀ (gres : Option GormDB) (e : Err),
        env.gormOpenDsn dsn = (gres, some e) →
        (Connect env g driver dsn opts).g = gres) ∧
    (driverBranch driver = Branch.direct →
      ∀ hdb : GormDB, env.gormOpenDsn dsn = (some hdb, none) →
        env.dbFetch hdb = none →
        (Connect env g driver dsn opts).g =
          some { hdb with conn := (applyOpts opts hdb.conn).1 }) := by
  refine ⟨?_, ?_, ?_, ?_, ?_⟩
  · intro hbr
    rw [Connect_unsupported env g driver dsn opts hbr]
    exact ⟨rfl, rfl⟩
  · intro hbr hsome
    rw [Connect_cloudsql env g driver dsn opts hbr]
    cases hr : env.registerDriver (authOption env.statOk) with
    | none => rw [hr] at hsome; simp at hsome
    | some e => rfl
  · intro hbr hreg hsome
    rw [Connect_cloudsql env g driver dsn opts hbr, hreg]
    dsimp only
    rcases hs : env.sqlOpen (toLowerStr driver) dsn with ⟨so, eo⟩
    rw [hs] at hsome
    cases eo with
    | none => simp at hsome
    | some e => rfl
  · intro hbr gres e hopen
    rw [Connect_direct env g driver dsn opts hbr, hopen]
    cases gres <;> rfl
  · intro hbr hdb hopen hfetch
    rw [Connect_direct env g driver dsn opts hbr, hopen]
    dsimp only
    unfold afterOpen
    rw [hfetch]

/-- Witness for the amended C1, exercising the option-failure clause: the
global ends as the freshly opened handle with the failing option's (empty)
mutations applied. -/
theorem C1_global_mutation_boundary_witness :
    (Connect envOk none "postgres" "dsn" [failOpt]).g =
      some { handle2 with conn := (applyOpts [failOpt] handle2.conn).1 } :=
  (C1_global_mutation_boundary envOk none "postgres" "dsn" [failOpt]).2.2.2.2
    (by decide) handle2 (by decide) (by decide)

end Stratus
